import Mathlib

/-!
Verification of the gif-generator repository (src/main.py, src/generate_gif.py).

The frame-synthesis pipeline is embedded shallowly:
* a decoded RGBA raster image is a width, a height and a pixel function whose
  four 8-bit channels are idealised as rationals (the library computes the
  same linear formulas in fixed point and rounds; the rounding is below the
  granularity of every statement proved here);
* PIL primitives used by the code (Image.new + paste with an alpha mask,
  Image.blend, Image.thumbnail dimension selection, convert("P")) are given
  as Lean functions mirroring their documented pixel/dimension semantics;
* the HTTP handler of main.py is a pure function of the request together with
  an environment of oracles for the external collaborators (Firebase token
  verification, the Firestore cooldown store, the success of the
  decode/generate pipeline), returning the response and whether the cooldown
  record was written.
-/

/-- One RGBA pixel; 8-bit channels idealised as rationals. -/
structure RGBA where
  r : ℚ
  g : ℚ
  b : ℚ
  a : ℚ
  deriving DecidableEq

/-- A decoded bitmap: width, height and per-pixel RGBA channels
(Image.open(...).convert("RGBA") upstream of the synthesiser). -/
structure RasterImage where
  width : Nat
  height : Nat
  pixel : Nat → Nat → RGBA

/-- Per-channel linear interpolation at factor alpha:
out = p*(1-alpha) + q*alpha on each of R, G, B, A independently. -/
def lerpRGBA (p q : RGBA) (alpha : ℚ) : RGBA :=
  ⟨p.r * (1 - alpha) + q.r * alpha,
   p.g * (1 - alpha) + q.g * alpha,
   p.b * (1 - alpha) + q.b * alpha,
   p.a * (1 - alpha) + q.a * alpha⟩

/-- PIL Image.blend(im1, im2, alpha): same-size interpolation
out = im1*(1-alpha) + im2*alpha (the library requires matching sizes;
every call in the code is on two canvases of identical dimensions). -/
def blend (im1 im2 : RasterImage) (alpha : ℚ) : RasterImage :=
  ⟨im1.width, im1.height, fun x y => lerpRGBA (im1.pixel x y) (im2.pixel x y) alpha⟩

/-- The fully transparent pixel (0, 0, 0, 0) used for the canvas background. -/
def transparentPixel : RGBA := ⟨0, 0, 0, 0⟩

/-- Pasting pixel fg over background bg with fg's own alpha band as the
mask (canvas.paste(img, (x, y), img)): each band, alpha included, is blended
by the mask weight fg.a / 255. -/
def maskComposite (bg fg : RGBA) : RGBA :=
  lerpRGBA bg fg (fg.a / 255)

/-- The centering offset: x = (max_w - img.width) // 2 and
y = (max_h - img.height) // 2 (Python floor division; the canvas is never
smaller than the image, so natural subtraction and division agree). -/
def centerOffset (W H w h : Nat) : Nat × Nat :=
  ((W - w) / 2, (H - h) / 2)

/-- canvas = Image.new("RGBA", (max_w, max_h), (0, 0, 0, 0));
canvas.paste(img, (x, y), img): the image is composited at the centering
offset with its own alpha as mask over a fully transparent background. -/
def centerImage (W H : Nat) (img : RasterImage) : RasterImage :=
  ⟨W, H, fun px py =>
    let x := (centerOffset W H img.width img.height).1
    let y := (centerOffset W H img.width img.height).2
    if x ≤ px ∧ px < x + img.width ∧ y ≤ py ∧ py < y + img.height then
      maskComposite transparentPixel (img.pixel (px - x) (py - y))
    else transparentPixel⟩

/-- max(img.width for img in images); the Python max raises on an empty
sequence, so this total version (0 on []) is only meaningful for the
nonempty lists the callers supply. -/
def maxWidth (images : List RasterImage) : Nat :=
  images.foldl (fun m img => max m img.width) 0

/-- max(img.height for img in images). -/
def maxHeight (images : List RasterImage) : Nat :=
  images.foldl (fun m img => max m img.height) 0

/-- img.convert("P", dither=Image.NONE, palette=Image.ADAPTIVE): lossy
quantisation to a per-frame adaptive palette of at most 256 colours.  The
palette internals live in the imaging library; the model keeps the
dimensions (which convert preserves) and the exact source image being
quantised. -/
structure PaletteFrame where
  width : Nat
  height : Nat
  source : RasterImage

/-- The palette conversion applied to every emitted frame. -/
def convertP (img : RasterImage) : PaletteFrame :=
  ⟨img.width, img.height, img⟩

/-- The fade frames inserted between a consecutive pair of centered frames:
for f in range(1, fade_frames + 1): alpha = f / (fade_frames + 1);
Image.blend(prev, curr, alpha).  (List.range fade_frames yields
f - 1 = 0, ..., fade_frames - 1.) -/
def fadeSeq (prev curr : RasterImage) (fade_frames : Nat) : List RasterImage :=
  (List.range fade_frames).map fun f =>
    blend prev curr (((f : Nat) + 1 : ℚ) / ((fade_frames : Nat) + 1 : ℚ))

/-- The loop over i in range(1, len(centered)): for each consecutive pair
(prev, curr) append the fade frames, each with fade_duration, then curr
with duration.  main.py converts each frame to palette mode as it is
appended and generate_gif.py converts the whole list afterwards; the
resulting (frame, duration) sequence is the same and is built here as a
single list of pairs (the Python code appends to two parallel lists in
lockstep). -/
def timelineTail (duration fade_duration : Int) (fade_frames : Nat) :
    RasterImage → List RasterImage → List (PaletteFrame × Int)
  | _, [] => []
  | prev, curr :: rest =>
    ((fadeSeq prev curr fade_frames).map fun b => (convertP b, fade_duration))
      ++ (convertP curr, duration) :: timelineTail duration fade_duration fade_frames curr rest

/-- The shared frame-synthesis core of generate_gif (both files): compute
the canvas as the maximum width/height, center every image onto a
transparent canvas of that size, then emit the first centered frame with
duration followed, per consecutive pair, by the fade frames and the real
frame.  The empty case is junk (Python's max raises there); every caller
passes at least two images. -/
def synthesize (images : List RasterImage) (duration : Int) (fade_frames : Nat)
    (fade_duration : Int) : List (PaletteFrame × Int) :=
  let max_w := maxWidth images
  let max_h := maxHeight images
  match images.map (centerImage max_w max_h) with
  | [] => []
  | c0 :: rest => (convertP c0, duration) :: timelineTail duration fade_duration fade_frames c0 rest

/-- MAX_SIZE = 800 in main.py (maximum width/height before thumbnailing). -/
def MAX_SIZE : Nat := 800

/-- Python min(floor(n), ceil(n), key=key) then max(..., 1): Pillow's
round_aspect helper.  Python's min keeps the first argument on ties. -/
def round_aspect (number : ℚ) (key : ℤ → ℚ) : ℤ :=
  max (if key ⌊number⌋ ≤ key ⌈number⌉ then ⌊number⌋ else ⌈number⌉) 1

/-- The dimensions img.thumbnail((MAX_SIZE, MAX_SIZE), LANCZOS) resizes to:
Pillow preserves the aspect ratio, keeping the binding dimension at the
bound and rounding the other with round_aspect (float arithmetic modelled
exactly by rationals).  When the image already fits, thumbnail returns
without resizing. -/
def thumbnailDims (w h : Nat) : Nat × Nat :=
  if MAX_SIZE ≥ w ∧ MAX_SIZE ≥ h then (w, h)
  else
    let aspect : ℚ := (w : ℚ) / (h : ℚ)
    if (MAX_SIZE : ℚ) / (MAX_SIZE : ℚ) ≥ aspect then
      ((round_aspect ((MAX_SIZE : ℚ) * aspect)
          (fun n => |aspect - (n : ℚ) / (MAX_SIZE : ℚ)|)).toNat, MAX_SIZE)
    else
      (MAX_SIZE,
       (round_aspect ((MAX_SIZE : ℚ) / aspect)
          (fun n => if n = 0 then 0 else |aspect - (MAX_SIZE : ℚ) / (n : ℚ)|)).toNat)

/-- The LANCZOS resample to the thumbnail dimensions.  The resampling kernel
is an external library primitive; only the produced dimensions are
semantically relevant to the code under verification, so the pixel field
simply samples the source. -/
def resample (img : RasterImage) (d : Nat × Nat) : RasterImage :=
  ⟨d.1, d.2, fun x y => img.pixel x y⟩

/-- The per-image resize step of main.py's generate_gif:
if img.width > MAX_SIZE or img.height > MAX_SIZE: img.thumbnail(...). -/
def resizeStep (img : RasterImage) : RasterImage :=
  if MAX_SIZE < img.width ∨ MAX_SIZE < img.height then
    resample img (thumbnailDims img.width img.height)
  else img

/-- Failure of the animated-GIF writer. -/
inductive EncodeError where
  | emptyTimeline
  | sizeMismatch
  deriving DecidableEq

/-- The serialized animation: frames, per-frame durations, loop count
(0 = infinite) and disposal mode (2 = restore to background). -/
structure GifData where
  frames : List PaletteFrame
  durations : List Int
  loop : Nat
  disposal : Nat

/-- Modelled from the spec: the Animation Encoder is realised by the external
imaging library's animated-GIF writer (frames[0].save(output, save_all=True,
append_images=frames[1:], duration=durations, loop=..., disposal=...)),
whose internals are not part of this repository.  Per spec section 4.2 it
fails with EncodeError on an empty timeline or when any frame's dimensions
differ from the first frame's, and otherwise serializes the frames with the
loop, per-frame duration and disposal parameters supplied at the call
site. -/
def save (frames : List PaletteFrame) (durations : List Int) (loop disposal : Nat) :
    Except EncodeError GifData :=
  match frames with
  | [] => .error .emptyTimeline
  | f0 :: _ =>
    if frames.all fun f => f.width = f0.width && f.height = f0.height then
      .ok ⟨frames, durations, loop, disposal⟩
    else .error .sizeMismatch

/-- The timeline main.py's generate_gif builds: resize every oversized
input, then run the shared synthesis core on the resized images. -/
def cloudTimeline (images : List RasterImage) (duration : Int) (fade_frames : Nat)
    (fade_duration : Int) : List (PaletteFrame × Int) :=
  synthesize (images.map resizeStep) duration fade_frames fade_duration

/-- generate_gif of main.py: resize, synthesize, then save with loop=0 and
disposal=2 (optimize only affects the byte-level packing). -/
def Cloud.generate_gif (images : List RasterImage) (duration : Int) (fade_frames : Nat)
    (fade_duration : Int) : Except EncodeError GifData :=
  let tl := cloudTimeline images duration fade_frames fade_duration
  save (tl.map (·.1)) (tl.map (·.2)) 0 2

/-- generate_gif of generate_gif.py (the local variant): no resizing;
synthesize, then save with loop=0 and disposal=2. -/
def Script.generate_gif (images : List RasterImage) (duration : Int) (fade_frames : Nat)
    (fade_duration : Int) : Except EncodeError GifData :=
  let tl := synthesize images duration fade_frames fade_duration
  save (tl.map (·.1)) (tl.map (·.2)) 0 2

/-! ## HTTP handler of main.py -/

/-- A JSON value as produced by request.get_json (numbers restricted to the
integers actually used by the endpoint). -/
inductive Json where
  | obj : List (String × Json) → Json
  | arr : List Json → Json
  | str : String → Json
  | num : Int → Json
  | bool : Bool → Json
  | null : Json

/-- Python truth-value testing on a decoded JSON value: empty dict, empty
list, empty string, zero, False and None are falsy. -/
def Json.falsy : Json → Bool
  | .obj l => l.isEmpty
  | .arr l => l.isEmpty
  | .str s => s.isEmpty
  | .num n => n == 0
  | .bool b => !b
  | .null => true

/-- len() on a decoded JSON value: defined on dicts, lists and strings,
a TypeError (modelled as none) on numbers, booleans and None. -/
def Json.pyLen : Json → Option Nat
  | .obj l => some l.length
  | .arr l => some l.length
  | .str s => some s.length
  | _ => none

/-- One decimal digit. -/
def decDigit (c : Char) : Option Nat :=
  if '0' ≤ c ∧ c ≤ '9' then some (c.toNat - '0'.toNat) else none

/-- Digits of a decimal numeral, most significant first. -/
def decDigitsAux : List Char → Nat → Option Nat
  | [], acc => some acc
  | c :: rest, acc =>
    match decDigit c with
    | some d => decDigitsAux rest (acc * 10 + d)
    | none => none

/-- Value of a nonempty all-digit string. -/
def decDigits (l : List Char) : Option Nat :=
  if l.isEmpty then none else decDigitsAux l 0

/-- int() applied to a JSON-decoded value: ints pass through, booleans
coerce (True is 1), decimal numeral strings (with an optional sign) parse,
anything else raises ValueError/TypeError (modelled as none; Python also
tolerates surrounding whitespace and underscores in numerals, a leniency no
statement here depends on). -/
def jsonToInt : Json → Option Int
  | .num n => some n
  | .bool b => some (if b then 1 else 0)
  | .str s =>
    match s.data with
    | '-' :: rest => (decDigits rest).map fun n => -Int.ofNat n
    | '+' :: rest => (decDigits rest).map Int.ofNat
    | l => (decDigits l).map Int.ofNat
  | _ => none

/-- Python str.split(" "): split at every single space, preserving empty
fields ("".split(" ") = [""]). -/
def splitOnSpace : List Char → List (List Char)
  | [] => [[]]
  | c :: rest =>
    let r := splitOnSpace rest
    if c = ' ' then [] :: r
    else
      match r with
      | [] => [[c]]
      | g :: gs => (c :: g) :: gs

/-- Outcome of the external auth.verify_id_token call on a token string:
a decoded uid, or one of the exceptions the handler catches.  (In the real
library ExpiredIdTokenError subclasses InvalidIdTokenError; the except
clauses are modelled as written since every branch yields a 401.) -/
inductive TokenOutcome where
  | ok (uid : List Char)
  | invalid
  | expired
  | failure

/-- State of the user's rate_limits document in the external cooldown
store, as seen by one request. -/
inductive RateDoc where
  | storeError
  | missing
  | noTimestamp
  | lastGen (t : Int)

/-- Response payloads the handler serialises with json.dumps (bodies are
kept structured rather than as strings). -/
inductive RespBody where
  | empty
  | err (msg : String)
  | rateLimited (daysRemaining hoursRemaining retryAfter : Int)
  | gif
  | null
  deriving DecidableEq

/-- Result of verify_token: Python returns (user_id, error, status) with
user_id set exactly when error is None. -/
inductive AuthResult where
  | ok (uid : List Char)
  | failed (body : RespBody) (status : Nat)

/-- The environment of external collaborators for one request: the token
verifier, the cooldown-store document, the current UTC time (in seconds)
and whether base64 decode + PIL decode + generate_gif + encode succeed
(they raise on failure, which the outer handler maps to a 500). -/
structure Env where
  verify : List Char → TokenOutcome
  rateDoc : RateDoc
  now : Int
  pipelineOk : Bool

/-- An incoming HTTP request: method, Authorization header and the result
of request.get_json(silent=True) (none when the body is not valid JSON). -/
structure HttpRequest where
  method : String
  authHeader : Option String
  body : Option Json

/-- verify_token of main.py: missing header, then "Bearer <token>" shape
(header.split(" ") must have exactly two parts with the first "Bearer"),
then the external verification with one 401 per caught exception class. -/
def verify_token (verify : List Char → TokenOutcome) (authHeader : Option String) :
    AuthResult :=
  match authHeader with
  | none => .failed (.err "Missing Authorization header") 401
  | some h =>
    let parts := splitOnSpace h.data
    if parts.length ≠ 2 ∨ parts.head? ≠ some "Bearer".data then
      .failed (.err "Invalid Authorization header format") 401
    else
      match verify (parts.getD 1 []) with
      | .ok uid => .ok uid
      | .invalid => .failed (.err "Invalid authentication token") 401
      | .expired => .failed (.err "Authentication token expired") 401
      | .failure => .failed (.err "Authentication failed") 401

/-- RATE_LIMIT_DAYS = 7 in main.py. -/
def RATE_LIMIT_DAYS : Int := 7

/-- Seconds per day (timedelta arithmetic modelled in seconds). -/
def SECONDS_PER_DAY : Int := 86400

/-- check_rate_limit of main.py, with Firestore abstracted to the RateDoc
state.  Python returns the triple (allowed, error_response, status); the
pair holds allowed together with the error/status when there is one.  A
store error is caught and the request allowed (fail open); a missing
document or timestamp allows; a timestamp within RATE_LIMIT_DAYS yields the
429 payload with the remaining days/hours (timedelta .days and .seconds //
3600) and the ISO retry_after instant last_gen + 7 days. -/
def check_rate_limit (now : Int) (doc : RateDoc) : Bool × Option (RespBody × Nat) :=
  match doc with
  | .storeError => (true, none)
  | .missing => (true, none)
  | .noTimestamp => (true, none)
  | .lastGen t =>
    let time_diff := now - t
    if time_diff < RATE_LIMIT_DAYS * SECONDS_PER_DAY then
      let time_remaining := RATE_LIMIT_DAYS * SECONDS_PER_DAY - time_diff
      (false,
       some (.rateLimited (time_remaining.ediv SECONDS_PER_DAY)
              ((time_remaining.emod SECONDS_PER_DAY).ediv 3600)
              (t + RATE_LIMIT_DAYS * SECONDS_PER_DAY), 429))
    else (true, none)

/-- The handler's outcome: response body, HTTP status, and whether
update_rate_limit wrote the cooldown record (update_rate_limit itself
swallows store errors after attempting the write; the flag records that the
write was performed/attempted). -/
structure HandlerResult where
  body : RespBody
  status : Nat
  cooldownUpdated : Bool
  deriving DecidableEq

/-- generate_gif_http of main.py.  OPTIONS short-circuits with 204; then,
inside the try block: verify_token, check_rate_limit,
request.get_json(silent=True) with the falsy-payload check, field
extraction (data.get on a non-dict raises AttributeError, caught by the
outer except as a 500; int() failures likewise), the two image-count
checks, the decode/generate/encode pipeline (500 on any raise), and only
then update_rate_limit followed by the 200 response. -/
def generate_gif_http (env : Env) (req : HttpRequest) : HandlerResult :=
  if req.method = "OPTIONS" then ⟨.empty, 204, false⟩
  else
    match verify_token env.verify req.authHeader with
    | .failed body status => ⟨body, status, false⟩
    | .ok _ =>
      match check_rate_limit env.now env.rateDoc with
      | (false, some (body, status)) => ⟨body, status, false⟩
      | (false, none) => ⟨.null, 0, false⟩
      | (true, _) =>
        match req.body with
        | none => ⟨.err "Invalid JSON payload", 400, false⟩
        | some data =>
          if data.falsy then ⟨.err "Invalid JSON payload", 400, false⟩
          else
            match data with
            | .obj fields =>
              let images_b64 := ((fields.lookup "images").getD (.arr []))
              match jsonToInt ((fields.lookup "duration").getD (.num 100)),
                    jsonToInt ((fields.lookup "fade_frames").getD (.num 10)),
                    jsonToInt ((fields.lookup "fade_duration").getD (.num 100)) with
              | some _, some _, some _ =>
                if images_b64.falsy then ⟨.err "At least 2 images required", 400, false⟩
                else
                  match images_b64.pyLen with
                  | none => ⟨.err "Internal server error", 500, false⟩
                  | some n =>
                    if n < 2 then ⟨.err "At least 2 images required", 400, false⟩
                    else if n > 3 then ⟨.err "Maximum 3 images allowed", 400, false⟩
                    else
                      if env.pipelineOk then ⟨.gif, 200, true⟩
                      else ⟨.err "Internal server error", 500, false⟩
              | _, _, _ => ⟨.err "Internal server error", 500, false⟩
            | _ => ⟨.err "Internal server error", 500, false⟩

/-! ## Helper lemmas: maxima, dimensions, timeline shape -/

section MaxLemmas

variable {α : Type} (f : α → Nat)

lemma foldl_max_init_le (l : List α) (a : Nat) :
    a ≤ l.foldl (fun m x => max m (f x)) a := by
  induction l generalizing a with
  | nil => exact Nat.le_refl a
  | cons x t ih => exact Nat.le_trans (Nat.le_max_left a (f x)) (ih (max a (f x)))

lemma le_foldl_max (l : List α) (a : Nat) :
    ∀ x ∈ l, f x ≤ l.foldl (fun m y => max m (f y)) a := by
  induction l generalizing a with
  | nil => intro x hx; cases hx
  | cons y t ih =>
    intro x hx
    rcases List.mem_cons.mp hx with h | h
    · subst h
      exact Nat.le_trans (Nat.le_max_right a (f x)) (foldl_max_init_le f t (max a (f x)))
    · exact ih (max a (f y)) x h

lemma foldl_max_attained (l : List α) (a : Nat) :
    l.foldl (fun m y => max m (f y)) a = a ∨
      ∃ x ∈ l, l.foldl (fun m y => max m (f y)) a = f x := by
  induction l generalizing a with
  | nil => exact Or.inl rfl
  | cons y t ih =>
    rcases ih (max a (f y)) with h | ⟨x, hx, hfx⟩
    · rcases max_choice a (f y) with hm | hm
      · exact Or.inl (by rw [List.foldl_cons, h, hm])
      · exact Or.inr ⟨y, List.mem_cons_self y t, by rw [List.foldl_cons, h, hm]⟩
    · exact Or.inr ⟨x, List.mem_cons_of_mem y hx, by rw [List.foldl_cons, hfx]⟩

end MaxLemmas

lemma width_le_maxWidth {imgs : List RasterImage} {i : RasterImage} (h : i ∈ imgs) :
    i.width ≤ maxWidth imgs :=
  le_foldl_max RasterImage.width imgs 0 i h

lemma height_le_maxHeight {imgs : List RasterImage} {i : RasterImage} (h : i ∈ imgs) :
    i.height ≤ maxHeight imgs :=
  le_foldl_max RasterImage.height imgs 0 i h

lemma maxWidth_attained {imgs : List RasterImage} (h : imgs ≠ []) :
    ∃ i ∈ imgs, i.width = maxWidth imgs := by
  rcases foldl_max_attained RasterImage.width imgs 0 with h0 | ⟨x, hx, hfx⟩
  · rcases imgs with _ | ⟨i, t⟩
    · exact absurd rfl h
    · have hle : i.width ≤ maxWidth (i :: t) := width_le_maxWidth (List.mem_cons_self i t)
      have h0' : maxWidth (i :: t) = 0 := h0
      exact ⟨i, List.mem_cons_self i t, by omega⟩
  · exact ⟨x, hx, hfx.symm⟩

lemma maxHeight_attained {imgs : List RasterImage} (h : imgs ≠ []) :
    ∃ i ∈ imgs, i.height = maxHeight imgs := by
  rcases foldl_max_attained RasterImage.height imgs 0 with h0 | ⟨x, hx, hfx⟩
  · rcases imgs with _ | ⟨i, t⟩
    · exact absurd rfl h
    · have hle : i.height ≤ maxHeight (i :: t) := height_le_maxHeight (List.mem_cons_self i t)
      have h0' : maxHeight (i :: t) = 0 := h0
      exact ⟨i, List.mem_cons_self i t, by omega⟩
  · exact ⟨x, hx, hfx.symm⟩

lemma fadeSeq_length (prev curr : RasterImage) (ff : Nat) :
    (fadeSeq prev curr ff).length = ff := by
  unfold fadeSeq
  rw [List.length_map, List.length_range]

lemma fadeSeq_dims {prev curr : RasterImage} {ff : Nat} {b : RasterImage}
    (hb : b ∈ fadeSeq prev curr ff) : b.width = prev.width ∧ b.height = prev.height := by
  simp only [fadeSeq, List.mem_map, List.mem_range] at hb
  obtain ⟨fi, _, rfl⟩ := hb
  exact ⟨rfl, rfl⟩

lemma timelineTail_dims {d fd : Int} {ff : Nat} {W H : Nat} :
    ∀ (rest : List RasterImage) (prev : RasterImage),
      prev.width = W → prev.height = H →
      (∀ c ∈ rest, c.width = W ∧ c.height = H) →
      ∀ e ∈ timelineTail d fd ff prev rest, e.1.width = W ∧ e.1.height = H := by
  intro rest
  induction rest with
  | nil => intro prev _ _ _ e he; cases he
  | cons curr t ih =>
    intro prev hw hh hall e he
    simp only [timelineTail, List.mem_append, List.mem_cons, List.mem_map] at he
    rcases he with ⟨b, hb, rfl⟩ | rfl | he
    · obtain ⟨hbw, hbh⟩ := fadeSeq_dims hb
      exact ⟨by simpa [convertP, hbw] using hw, by simpa [convertP, hbh] using hh⟩
    · obtain ⟨hcw, hch⟩ := hall curr (List.mem_cons_self curr t)
      exact ⟨by simpa [convertP] using hcw, by simpa [convertP] using hch⟩
    · obtain ⟨hcw, hch⟩ := hall curr (List.mem_cons_self curr t)
      exact ih curr hcw hch (fun c hc => hall c (List.mem_cons_of_mem curr hc)) e he

lemma synthesize_dims {imgs : List RasterImage} {d fd : Int} {ff : Nat} :
    ∀ e ∈ synthesize imgs d ff fd, e.1.width = maxWidth imgs ∧ e.1.height = maxHeight imgs := by
  intro e he
  rcases imgs with _ | ⟨i, t⟩
  · cases he
  · simp only [synthesize, List.map_cons, List.mem_cons] at he
    rcases he with rfl | he
    · exact ⟨rfl, rfl⟩
    · refine timelineTail_dims (t.map (centerImage (maxWidth (i :: t)) (maxHeight (i :: t))))
        (centerImage (maxWidth (i :: t)) (maxHeight (i :: t)) i) rfl rfl ?_ e he
      intro c hc
      simp only [List.mem_map] at hc
      obtain ⟨x, _, rfl⟩ := hc
      exact ⟨rfl, rfl⟩

lemma timelineTail_length (d fd : Int) (ff : Nat) :
    ∀ (rest : List RasterImage) (prev : RasterImage),
      (timelineTail d fd ff prev rest).length = rest.length * (ff + 1) := by
  intro rest
  induction rest with
  | nil => intro prev; simp [timelineTail]
  | cons curr t ih =>
    intro prev
    simp only [timelineTail, List.length_append, List.length_map, List.length_cons,
      fadeSeq_length, ih curr]
    ring

lemma synthesize_length {imgs : List RasterImage} (d fd : Int) (ff : Nat) (h : imgs ≠ []) :
    (synthesize imgs d ff fd).length = 1 + (imgs.length - 1) * (ff + 1) := by
  rcases imgs with _ | ⟨i, t⟩
  · exact absurd rfl h
  · simp [synthesize, timelineTail_length, Nat.add_comm]

lemma timelineTail_blocks (d fd : Int) (ff : Nat) :
    ∀ (rest : List RasterImage) (prev : RasterImage),
      ∃ blocks : List (List (PaletteFrame × Int)),
        timelineTail d fd ff prev rest = blocks.flatten ∧
        blocks.length = rest.length ∧
        ∀ b ∈ blocks, b.length = ff + 1 ∧ b.map Prod.snd = List.replicate ff fd ++ [d] := by
  intro rest
  induction rest with
  | nil => intro prev; exact ⟨[], rfl, rfl, by intro b hb; cases hb⟩
  | cons curr t ih =>
    intro prev
    obtain ⟨blocks, hb, hlen, hall⟩ := ih curr
    refine ⟨(((fadeSeq prev curr ff).map fun b => (convertP b, fd)) ++ [(convertP curr, d)])
      :: blocks, ?_, by simp [hlen], ?_⟩
    · simp only [timelineTail, hb, List.flatten_cons, List.append_assoc, List.singleton_append]
    · intro b hbm
      rcases List.mem_cons.mp hbm with rfl | hbm
      · constructor
        · simp [fadeSeq_length]
        · rw [List.map_append, List.map_map]
          have h1 : (Prod.snd ∘ fun b : RasterImage => (convertP b, fd)) =
              fun _ : RasterImage => fd := rfl
          rw [h1, List.map_const', fadeSeq_length]
          rfl
      · exact hall b hbm

lemma timelineTail_durations (d fd : Int) (ff : Nat) :
    ∀ (rest : List RasterImage) (prev : RasterImage),
      (timelineTail d fd ff prev rest).map Prod.snd =
        (List.replicate rest.length (List.replicate ff fd ++ [d])).flatten := by
  intro rest
  induction rest with
  | nil => intro prev; simp [timelineTail]
  | cons curr t ih =>
    intro prev
    simp only [timelineTail, List.map_append, List.map_cons, List.map_map,
      List.length_cons, List.replicate_succ, List.flatten_cons, ← ih curr]
    rw [show (Prod.snd ∘ fun b : RasterImage => (convertP b, fd)) =
        fun _ : RasterImage => fd from rfl,
      List.map_const', fadeSeq_length, List.append_assoc, List.singleton_append]

lemma synthesize_durations {imgs : List RasterImage} (d fd : Int) (ff : Nat)
    (h : imgs ≠ []) :
    (synthesize imgs d ff fd).map Prod.snd =
      d :: (List.replicate (imgs.length - 1) (List.replicate ff fd ++ [d])).flatten := by
  rcases imgs with _ | ⟨i, t⟩
  · exact absurd rfl h
  · simp [synthesize, timelineTail_durations]

lemma resizeStep_id {img : RasterImage} (hw : img.width ≤ MAX_SIZE)
    (hh : img.height ≤ MAX_SIZE) : resizeStep img = img := by
  have hc : ¬(MAX_SIZE < img.width ∨ MAX_SIZE < img.height) := by
    push_neg
    exact ⟨hw, hh⟩
  unfold resizeStep
  rw [if_neg hc]

lemma map_resizeStep_id {imgs : List RasterImage}
    (h : ∀ i ∈ imgs, i.width ≤ MAX_SIZE ∧ i.height ≤ MAX_SIZE) :
    imgs.map resizeStep = imgs := by
  induction imgs with
  | nil => rfl
  | cons i t ih =>
    obtain ⟨hw, hh⟩ := h i (List.mem_cons_self i t)
    rw [List.map_cons, resizeStep_id hw hh,
      ih fun c hc => h c (List.mem_cons_of_mem i hc)]

/-! ## Concrete test images for the scenario statements -/

/-- A uniformly red 1-by-1 test image. -/
def imgA : RasterImage := ⟨1, 1, fun _ _ => ⟨255, 0, 0, 255⟩⟩

/-- A uniformly blue 1-by-1 test image. -/
def imgB : RasterImage := ⟨1, 1, fun _ _ => ⟨0, 0, 255, 255⟩⟩

/-- imgA centered on the 1-by-1 canvas of the [imgA, imgB] request. -/
def centeredA : RasterImage := centerImage 1 1 imgA

/-- imgB centered on the 1-by-1 canvas of the [imgA, imgB] request. -/
def centeredB : RasterImage := centerImage 1 1 imgB

/-- C2 (confirmed): for every input sequence of N >= 2 images and every
fade_frames >= 0, the timeline returned by synthesize (generate_gif) has
exactly 1 + (N-1)*(fade_frames+1) entries: one first real frame, then per
consecutive pair fade_frames interpolated frames followed by one real
frame (the per-pair blocks each have fade_frames + 1 entries). -/
theorem timeline_length_spec (imgs : List RasterImage) (d fd : Int) (ff : Nat)
    (h : 2 ≤ imgs.length) :
    (synthesize imgs d ff fd).length = 1 + (imgs.length - 1) * (ff + 1) ∧
    ∃ (first : PaletteFrame × Int) (blocks : List (List (PaletteFrame × Int))),
      synthesize imgs d ff fd = first :: blocks.flatten ∧
      first.2 = d ∧ blocks.length = imgs.length - 1 ∧
      ∀ b ∈ blocks, b.length = ff + 1 := by
  have hne : imgs ≠ [] := by
    intro he
    rw [he] at h
    simp at h
  refine ⟨synthesize_length d fd ff hne, ?_⟩
  rcases imgs with _ | ⟨i, t⟩
  · exact absurd rfl hne
  · obtain ⟨blocks, hb, hlen, hall⟩ :=
      timelineTail_blocks d fd ff (t.map (centerImage (maxWidth (i :: t)) (maxHeight (i :: t))))
        (centerImage (maxWidth (i :: t)) (maxHeight (i :: t)) i)
    refine ⟨(convertP (centerImage (maxWidth (i :: t)) (maxHeight (i :: t)) i), d), blocks,
      ?_, rfl, by simp [hlen], fun b hbm => (hall b hbm).1⟩
    simp [synthesize, hb]

/-- Witness for C2: the two-image request with two fade frames yields a
timeline of length 1 + 1 * 3 = 4. -/
theorem timeline_length_spec_witness :
    2 ≤ ([imgA, imgB] : List RasterImage).length ∧
    (synthesize [imgA, imgB] 500 2 50).length = 1 + ([imgA, imgB].length - 1) * (2 + 1) :=
  ⟨by decide, (timeline_length_spec [imgA, imgB] 500 50 2 (by decide)).1⟩

/-- C3 (confirmed): for every consecutive pair (prev, curr) of centered
frames and every f from 1 to fade_frame_count, the f-th fade frame is the
per-channel linear interpolation out = prev*(1-alpha) + curr*alpha with
alpha = f/(fade_frame_count+1), applied independently to R, G, B, A; every
such alpha lies strictly between 0 and 1. -/
theorem fade_frame_interpolation (prev curr : RasterImage) (ff f x y : Nat)
    (h1 : 1 ≤ f) (h2 : f ≤ ff) :
    (fadeSeq prev curr ff)[f - 1]? = some (blend prev curr (f / (ff + 1) : ℚ)) ∧
    0 < (f / (ff + 1) : ℚ) ∧ (f / (ff + 1) : ℚ) < 1 ∧
    (blend prev curr (f / (ff + 1) : ℚ)).pixel x y =
      ⟨(prev.pixel x y).r * (1 - (f / (ff + 1) : ℚ)) + (curr.pixel x y).r * (f / (ff + 1) : ℚ),
       (prev.pixel x y).g * (1 - (f / (ff + 1) : ℚ)) + (curr.pixel x y).g * (f / (ff + 1) : ℚ),
       (prev.pixel x y).b * (1 - (f / (ff + 1) : ℚ)) + (curr.pixel x y).b * (f / (ff + 1) : ℚ),
       (prev.pixel x y).a * (1 - (f / (ff + 1) : ℚ)) + (curr.pixel x y).a * (f / (ff + 1) : ℚ)⟩ := by
  have hlt : f - 1 < ff := by omega
  have hcast : ((f - 1 : Nat) + 1 : ℚ) = (f : ℚ) := by
    have := Nat.sub_add_cancel h1
    exact_mod_cast congrArg (Nat.cast : Nat → ℚ) this
  refine ⟨?_, ?_, ?_, rfl⟩
  · unfold fadeSeq
    rw [List.getElem?_map]
    simp only [List.getElem?_range, hlt]
    rw [Option.map_some', hcast]
  · apply div_pos
    · exact_mod_cast h1
    · positivity
  · rw [div_lt_one (by positivity)]
    exact_mod_cast Nat.lt_succ_of_le h2

/-- Witness for C3: with fade_frame_count = 2 the first fade frame between
the two test images is the blend at alpha = 1/3, strictly interior. -/
theorem fade_frame_interpolation_witness :
    1 ≤ 1 ∧ 1 ≤ 2 ∧
    ((fadeSeq imgA imgB 2)[1 - 1]? = some (blend imgA imgB ((1 : Nat) / ((2 : Nat) + 1) : ℚ)) ∧
     0 < ((1 : Nat) / ((2 : Nat) + 1) : ℚ) ∧ ((1 : Nat) / ((2 : Nat) + 1) : ℚ) < 1 ∧
     (blend imgA imgB ((1 : Nat) / ((2 : Nat) + 1) : ℚ)).pixel 0 0 =
       ⟨(imgA.pixel 0 0).r * (1 - ((1 : Nat) / ((2 : Nat) + 1) : ℚ)) +
          (imgB.pixel 0 0).r * ((1 : Nat) / ((2 : Nat) + 1) : ℚ),
        (imgA.pixel 0 0).g * (1 - ((1 : Nat) / ((2 : Nat) + 1) : ℚ)) +
          (imgB.pixel 0 0).g * ((1 : Nat) / ((2 : Nat) + 1) : ℚ),
        (imgA.pixel 0 0).b * (1 - ((1 : Nat) / ((2 : Nat) + 1) : ℚ)) +
          (imgB.pixel 0 0).b * ((1 : Nat) / ((2 : Nat) + 1) : ℚ),
        (imgA.pixel 0 0).a * (1 - ((1 : Nat) / ((2 : Nat) + 1) : ℚ)) +
          (imgB.pixel 0 0).a * ((1 : Nat) / ((2 : Nat) + 1) : ℚ)⟩) :=
  ⟨by decide, by decide, fade_frame_interpolation imgA imgB 2 1 0 0 (by decide) (by decide)⟩

/-- C5 (confirmed): every input image of width w, height h centered onto a
canvas of width W, height H is pasted at offset ((W-w)/2, (H-h)/2) (floor
division) over a fully transparent background, composited with the image's
own alpha; for inputs 100x100 and 50x200 the canvas is 100x200 and the
offsets are (0,50) and (25,0). -/
theorem centering_offsets (W H : Nat) (img : RasterImage) (px py : Nat) :
    (centerImage W H img).width = W ∧ (centerImage W H img).height = H ∧
    centerOffset W H img.width img.height =
      ((W - img.width) / 2, (H - img.height) / 2) ∧
    (¬((W - img.width) / 2 ≤ px ∧ px < (W - img.width) / 2 + img.width ∧
        (H - img.height) / 2 ≤ py ∧ py < (H - img.height) / 2 + img.height) →
      (centerImage W H img).pixel px py = transparentPixel) ∧
    (((W - img.width) / 2 ≤ px ∧ px < (W - img.width) / 2 + img.width ∧
        (H - img.height) / 2 ≤ py ∧ py < (H - img.height) / 2 + img.height) →
      (centerImage W H img).pixel px py =
        maskComposite transparentPixel
          (img.pixel (px - (W - img.width) / 2) (py - (H - img.height) / 2))) ∧
    (∀ p1 p2 : Nat → Nat → RGBA,
      maxWidth [⟨100, 100, p1⟩, ⟨50, 200, p2⟩] = 100 ∧
      maxHeight [⟨100, 100, p1⟩, ⟨50, 200, p2⟩] = 200 ∧
      centerOffset 100 200 100 100 = (0, 50) ∧
      centerOffset 100 200 50 200 = (25, 0)) := by
  refine ⟨rfl, rfl, rfl, ?_, ?_, ?_⟩
  · intro hout
    simp only [centerImage, centerOffset]
    rw [if_neg hout]
  · intro hin
    simp only [centerImage, centerOffset]
    rw [if_pos hin]
  · intro p1 p2
    exact ⟨rfl, rfl, rfl, rfl⟩

/-- A 100x100 test image used in the centering witness. -/
def sampleImage : RasterImage := ⟨100, 100, fun _ _ => ⟨1, 2, 3, 4⟩⟩

/-- Witness for C5: the 100x100 image on the 100x200 canvas is transparent
at (0, 0) (above the pasted region) and carries the composited image pixel
at (0, 50), the centering offset being (0, 50). -/
theorem centering_offsets_witness :
    (centerImage 100 200 sampleImage).pixel 0 0 = transparentPixel ∧
    (centerImage 100 200 sampleImage).pixel 0 50 =
      maskComposite transparentPixel
        (sampleImage.pixel (0 - (100 - sampleImage.width) / 2)
          (50 - (200 - sampleImage.height) / 2)) :=
  ⟨(centering_offsets 100 200 sampleImage 0 0).2.2.2.1 (by decide),
   (centering_offsets 100 200 sampleImage 0 50).2.2.2.2.1 (by decide)⟩

lemma scenario_timeline :
    synthesize [imgA, imgB] 500 2 50 =
      [(convertP centeredA, 500),
       (convertP (blend centeredA centeredB (1/3)), 50),
       (convertP (blend centeredA centeredB (2/3)), 50),
       (convertP centeredB, 500)] := by
  simp only [synthesize, List.map_cons, List.map_nil, timelineTail, fadeSeq,
    List.range_succ, List.range_zero, List.map_append, List.nil_append,
    List.append_assoc, List.singleton_append, List.cons_append]
  norm_num [centeredA, centeredB, show maxWidth [imgA, imgB] = 1 from rfl,
    show maxHeight [imgA, imgB] = 1 from rfl]

/-- C4 (confirmed): in the timeline produced by synthesize (generate_gif),
the first entry and every full-image entry carry base_duration_ms and every
interpolated fade entry carries fade_duration_ms; for images=[A,B],
duration=500, fade_frames=2, fade_duration=50 the timeline is exactly
[A@500, blend(A,B,1/3)@50, blend(A,B,2/3)@50, B@500] (length 4). -/
theorem timeline_durations_spec (imgs : List RasterImage) (d fd : Int) (ff : Nat)
    (h : imgs ≠ []) :
    (synthesize imgs d ff fd).map Prod.snd =
      d :: (List.replicate (imgs.length - 1) (List.replicate ff fd ++ [d])).flatten ∧
    synthesize [imgA, imgB] 500 2 50 =
      [(convertP centeredA, 500),
       (convertP (blend centeredA centeredB (1/3)), 50),
       (convertP (blend centeredA centeredB (2/3)), 50),
       (convertP centeredB, 500)] :=
  ⟨synthesize_durations d fd ff h, scenario_timeline⟩

/-- Witness for C4: the duration sequence of the [imgA, imgB] request with
duration 500, two fade frames and fade duration 50. -/
theorem timeline_durations_spec_witness :
    (synthesize [imgA, imgB] 500 2 50).map Prod.snd =
      500 :: (List.replicate ([imgA, imgB].length - 1)
        (List.replicate 2 50 ++ [500])).flatten ∧
    synthesize [imgA, imgB] 500 2 50 =
      [(convertP centeredA, 500),
       (convertP (blend centeredA centeredB (1/3)), 50),
       (convertP (blend centeredA centeredB (2/3)), 50),
       (convertP centeredB, 500)] :=
  timeline_durations_spec [imgA, imgB] 500 50 2 (by simp)

/-! ## C1: canvas dimensions -/

/-- The constant transparent pixel function for dimension-only test images. -/
def blankPixel : Nat → Nat → RGBA := fun _ _ => transparentPixel

/-- A 1600x1600 input, larger than MAX_SIZE in both dimensions. -/
def bigImage : RasterImage := ⟨1600, 1600, blankPixel⟩

/-- A 100x100 input, within MAX_SIZE. -/
def smallImage : RasterImage := ⟨100, 100, blankPixel⟩

/-- Counterexample to C1 as stated: main.py's generate_gif thumbnails the
1600x1600 input down to 800x800, so the canvas (and every frame) is
800x800, not the 1600x1600 maximum across the input images. -/
theorem canvas_dims_counterexample :
    maxWidth [bigImage, smallImage] = 1600 ∧
    maxHeight [bigImage, smallImage] = 1600 ∧
    (cloudTimeline [bigImage, smallImage] 100 10 100).head?.map
        (fun e => (e.1.width, e.1.height)) = some (800, 800) ∧
    (800 : Nat) ≠ 1600 := by
  refine ⟨rfl, rfl, ?_, by decide⟩
  have ht : thumbnailDims 1600 1600 = (800, 800) := by
    unfold thumbnailDims round_aspect
    norm_num [MAX_SIZE]
    decide
  have hbig : resizeStep bigImage = ⟨800, 800, fun x y => bigImage.pixel x y⟩ := by
    unfold resizeStep
    rw [if_pos (by decide)]
    rw [show bigImage.width = 1600 from rfl, show bigImage.height = 1600 from rfl, ht]
    rfl
  have hsmall : resizeStep smallImage = smallImage :=
    resizeStep_id (by decide) (by decide)
  simp only [cloudTimeline, List.map_cons, List.map_nil, hbig, hsmall, synthesize]
  decide

/-- C1 (corrected): the canvas is the maximum width/height across the
images after main.py's resize step (inputs exceeding 800px in either
dimension are thumbnailed first, so the claim as stated holds there only
when every input fits within 800x800), and across the unmodified inputs in
generate_gif.py, which never resizes; in both, every emitted frame has
exactly the canvas dimensions. -/
theorem canvas_dims_amended :
    (∀ (imgs : List RasterImage) (d fd : Int) (ff : Nat), imgs ≠ [] →
      (∀ i ∈ imgs, i.width ≤ maxWidth imgs ∧ i.height ≤ maxHeight imgs) ∧
      (∃ i ∈ imgs, i.width = maxWidth imgs) ∧
      (∃ i ∈ imgs, i.height = maxHeight imgs) ∧
      ∀ e ∈ synthesize imgs d ff fd,
        e.1.width = maxWidth imgs ∧ e.1.height = maxHeight imgs) ∧
    (∀ (imgs : List RasterImage) (d fd : Int) (ff : Nat),
      ∀ e ∈ cloudTimeline imgs d ff fd,
        e.1.width = maxWidth (imgs.map resizeStep) ∧
        e.1.height = maxHeight (imgs.map resizeStep)) ∧
    (∀ imgs : List RasterImage,
      (∀ i ∈ imgs, i.width ≤ MAX_SIZE ∧ i.height ≤ MAX_SIZE) →
      imgs.map resizeStep = imgs) := by
  refine ⟨?_, ?_, ?_⟩
  · intro imgs d fd ff hne
    exact ⟨fun i hi => ⟨width_le_maxWidth hi, height_le_maxHeight hi⟩,
      maxWidth_attained hne, maxHeight_attained hne, fun e he => synthesize_dims e he⟩
  · intro imgs d fd ff e he
    exact synthesize_dims e he
  · intro imgs h
    exact map_resizeStep_id h

/-- Witness for C1 (amended): the two 1-by-1 test images have canvas 1x1,
every timeline frame is 1x1, and within the 800px bound the resize step is
the identity. -/
theorem canvas_dims_amended_witness :
    ([imgA, imgB] : List RasterImage) ≠ [] ∧
    ((∀ i ∈ [imgA, imgB],
        i.width ≤ maxWidth [imgA, imgB] ∧ i.height ≤ maxHeight [imgA, imgB]) ∧
      (∃ i ∈ [imgA, imgB], i.width = maxWidth [imgA, imgB]) ∧
      (∃ i ∈ [imgA, imgB], i.height = maxHeight [imgA, imgB]) ∧
      ∀ e ∈ synthesize [imgA, imgB] 500 2 50,
        e.1.width = maxWidth [imgA, imgB] ∧ e.1.height = maxHeight [imgA, imgB]) ∧
    [imgA, imgB].map resizeStep = [imgA, imgB] :=
  ⟨by simp, canvas_dims_amended.1 [imgA, imgB] 500 50 2 (by simp),
   canvas_dims_amended.2.2 [imgA, imgB] (by decide)⟩

/-! ## Helper lemmas: handler stages -/

lemma verify_token_none (v : List Char → TokenOutcome) :
    verify_token v none = .failed (.err "Missing Authorization header") 401 := rfl

lemma verify_token_malformed (v : List Char → TokenOutcome) (h : String)
    (hbad : (splitOnSpace h.data).length ≠ 2 ∨
      (splitOnSpace h.data).head? ≠ some "Bearer".data) :
    verify_token v (some h) = .failed (.err "Invalid Authorization header format") 401 := by
  simp only [verify_token]
  rw [if_pos hbad]

lemma verify_token_wellformed (v : List Char → TokenOutcome) (h : String) (tok : List Char)
    (hparts : splitOnSpace h.data = ["Bearer".data, tok]) :
    verify_token v (some h) =
      match v tok with
      | .ok uid => .ok uid
      | .invalid => .failed (.err "Invalid authentication token") 401
      | .expired => .failed (.err "Authentication token expired") 401
      | .failure => .failed (.err "Authentication failed") 401 := by
  unfold verify_token
  simp only [hparts, List.length_cons, List.length_nil, List.head?_cons, List.getD]
  norm_num

lemma verify_token_ok (v : List Char → TokenOutcome) (h : String) (tok uid : List Char)
    (hparts : splitOnSpace h.data = ["Bearer".data, tok]) (hv : v tok = .ok uid) :
    verify_token v (some h) = .ok uid := by
  rw [verify_token_wellformed v h tok hparts, hv]

lemma check_rate_limit_active (now t : Int)
    (hlt : now - t < RATE_LIMIT_DAYS * SECONDS_PER_DAY) :
    check_rate_limit now (.lastGen t) =
      (false, some (.rateLimited
        ((RATE_LIMIT_DAYS * SECONDS_PER_DAY - (now - t)).ediv SECONDS_PER_DAY)
        (((RATE_LIMIT_DAYS * SECONDS_PER_DAY - (now - t)).emod SECONDS_PER_DAY).ediv 3600)
        (t + RATE_LIMIT_DAYS * SECONDS_PER_DAY), 429)) := by
  simp only [check_rate_limit]
  rw [if_pos hlt]

lemma handler_auth_failed {env : Env} {req : HttpRequest} {b : RespBody} {st : Nat}
    (hm : req.method ≠ "OPTIONS")
    (hv : verify_token env.verify req.authHeader = .failed b st) :
    generate_gif_http env req = ⟨b, st, false⟩ := by
  unfold generate_gif_http
  rw [if_neg hm, hv]

lemma handler_rate_limited {env : Env} {req : HttpRequest} {uid : List Char}
    {b : RespBody} {st : Nat} (hm : req.method ≠ "OPTIONS")
    (hv : verify_token env.verify req.authHeader = .ok uid)
    (hr : check_rate_limit env.now env.rateDoc = (false, some (b, st))) :
    generate_gif_http env req = ⟨b, st, false⟩ := by
  unfold generate_gif_http
  rw [if_neg hm, hv, hr]

lemma handler_invalid_json_none {env : Env} {req : HttpRequest} {uid : List Char}
    (hm : req.method ≠ "OPTIONS")
    (hv : verify_token env.verify req.authHeader = .ok uid)
    (hr : (check_rate_limit env.now env.rateDoc).1 = true)
    (hb : req.body = none) :
    generate_gif_http env req = ⟨.err "Invalid JSON payload", 400, false⟩ := by
  unfold generate_gif_http
  rw [if_neg hm, hv]
  rcases hcr : check_rate_limit env.now env.rateDoc with ⟨b1, o⟩
  rw [hcr] at hr
  have hb1 : b1 = true := hr
  subst hb1
  rcases o with _ | ⟨b2, st2⟩ <;> simp [hb]

lemma handler_invalid_json_falsy {env : Env} {req : HttpRequest} {uid : List Char}
    {d : Json} (hm : req.method ≠ "OPTIONS")
    (hv : verify_token env.verify req.authHeader = .ok uid)
    (hr : (check_rate_limit env.now env.rateDoc).1 = true)
    (hb : req.body = some d) (hd : d.falsy = true) :
    generate_gif_http env req = ⟨.err "Invalid JSON payload", 400, false⟩ := by
  unfold generate_gif_http
  rw [if_neg hm, hv]
  rcases hcr : check_rate_limit env.now env.rateDoc with ⟨b1, o⟩
  rw [hcr] at hr
  have hb1 : b1 = true := hr
  subst hb1
  rcases o with _ | ⟨b2, st2⟩ <;> simp [hb, hd]

lemma handler_too_few {env : Env} {req : HttpRequest} {uid : List Char}
    {fields : List (String × Json)} {dv fv gv : Int} {l : List Json}
    (hm : req.method ≠ "OPTIONS")
    (hv : verify_token env.verify req.authHeader = .ok uid)
    (hr : (check_rate_limit env.now env.rateDoc).1 = true)
    (hb : req.body = some (.obj fields)) (hnf : (Json.obj fields).falsy = false)
    (hd : jsonToInt ((fields.lookup "duration").getD (.num 100)) = some dv)
    (hf : jsonToInt ((fields.lookup "fade_frames").getD (.num 10)) = some fv)
    (hg : jsonToInt ((fields.lookup "fade_duration").getD (.num 100)) = some gv)
    (himg : (fields.lookup "images").getD (.arr []) = .arr l)
    (hlen : l.length < 2) :
    generate_gif_http env req = ⟨.err "At least 2 images required", 400, false⟩ := by
  have hnf2 : fields.isEmpty = false := hnf
  unfold generate_gif_http
  rw [if_neg hm, hv]
  rcases hcr : check_rate_limit env.now env.rateDoc with ⟨b1, o⟩
  rw [hcr] at hr
  have hb1 : b1 = true := hr
  subst hb1
  rcases l with _ | ⟨x, xs⟩
  · rcases o with _ | ⟨b2, st2⟩ <;>
      simp [hb, hnf2, hd, hf, hg, himg, Json.falsy]
  · have hl : xs.length + 1 < 2 := by simpa using hlen
    rcases o with _ | ⟨b2, st2⟩ <;>
      simp [hb, hnf2, hd, hf, hg, himg, Json.falsy, Json.pyLen, hl]

lemma handler_too_many {env : Env} {req : HttpRequest} {uid : List Char}
    {fields : List (String × Json)} {dv fv gv : Int} {l : List Json}
    (hm : req.method ≠ "OPTIONS")
    (hv : verify_token env.verify req.authHeader = .ok uid)
    (hr : (check_rate_limit env.now env.rateDoc).1 = true)
    (hb : req.body = some (.obj fields)) (hnf : (Json.obj fields).falsy = false)
    (hd : jsonToInt ((fields.lookup "duration").getD (.num 100)) = some dv)
    (hf : jsonToInt ((fields.lookup "fade_frames").getD (.num 10)) = some fv)
    (hg : jsonToInt ((fields.lookup "fade_duration").getD (.num 100)) = some gv)
    (himg : (fields.lookup "images").getD (.arr []) = .arr l)
    (hlen : 3 < l.length) :
    generate_gif_http env req = ⟨.err "Maximum 3 images allowed", 400, false⟩ := by
  have hnf2 : fields.isEmpty = false := hnf
  unfold generate_gif_http
  rw [if_neg hm, hv]
  rcases hcr : check_rate_limit env.now env.rateDoc with ⟨b1, o⟩
  rw [hcr] at hr
  have hb1 : b1 = true := hr
  subst hb1
  rcases l with _ | ⟨x, xs⟩
  · simp at hlen
  · have h2 : ¬(xs.length + 1 < 2) := by
      simp only [List.length_cons] at hlen
      omega
    have h3 : 3 < xs.length + 1 := by simpa using hlen
    rcases o with _ | ⟨b2, st2⟩ <;>
      simp [hb, hnf2, hd, hf, hg, himg, Json.falsy, Json.pyLen, h2, h3]

/-! ## Concrete environments and requests for witnesses -/

/-- A token verifier that accepts every token for user1. -/
def okVerifier : List Char → TokenOutcome := fun _ => .ok "user1".data

/-- Fully permissive environment: token accepted, no cooldown record,
generation pipeline succeeds. -/
def envAllOk : Env := ⟨okVerifier, .missing, 0, true⟩

/-- Environment whose verifier rejects every token as invalid. -/
def envInvalidTok : Env := ⟨fun _ => .invalid, .missing, 0, true⟩

/-- Environment whose verifier rejects every token as expired. -/
def envExpiredTok : Env := ⟨fun _ => .expired, .missing, 0, true⟩

/-- Environment with an active cooldown: last generation at time 0,
current time 1000 seconds (far less than 7 days). -/
def envCooldown : Env := ⟨okVerifier, .lastGen 0, 1000, true⟩

/-- Environment whose cooldown store raises on the read. -/
def envStoreErr : Env := ⟨okVerifier, .storeError, 0, true⟩

/-- A POST request with a well-formed bearer header and the given body. -/
def authedReq (body : Option Json) : HttpRequest := ⟨"POST", some "Bearer tok", body⟩

/-- C6 (confirmed): the HTTP handler performs its validation checks in this
fixed order, each short-circuiting with its response before later checks
run: missing or malformed Authorization header gives 401; invalid/expired
token gives 401; active cooldown gives 429; body not valid JSON gives 400;
images absent or fewer than 2 gives 400 "At least 2 images required"; more
than 3 images gives 400 "Maximum 3 images allowed".  Each stage's response
holds for every state of the later stages. -/
theorem validation_order :
    (∀ (env : Env) (req : HttpRequest), req.method ≠ "OPTIONS" →
      req.authHeader = none →
      generate_gif_http env req = ⟨.err "Missing Authorization header", 401, false⟩) ∧
    (∀ (env : Env) (req : HttpRequest) (h : String), req.method ≠ "OPTIONS" →
      req.authHeader = some h →
      ((splitOnSpace h.data).length ≠ 2 ∨
        (splitOnSpace h.data).head? ≠ some "Bearer".data) →
      generate_gif_http env req = ⟨.err "Invalid Authorization header format", 401, false⟩) ∧
    (∀ (env : Env) (req : HttpRequest) (h : String) (tok : List Char),
      req.method ≠ "OPTIONS" → req.authHeader = some h →
      splitOnSpace h.data = ["Bearer".data, tok] → env.verify tok = .invalid →
      generate_gif_http env req = ⟨.err "Invalid authentication token", 401, false⟩) ∧
    (∀ (env : Env) (req : HttpRequest) (h : String) (tok : List Char),
      req.method ≠ "OPTIONS" → req.authHeader = some h →
      splitOnSpace h.data = ["Bearer".data, tok] → env.verify tok = .expired →
      generate_gif_http env req = ⟨.err "Authentication token expired", 401, false⟩) ∧
    (∀ (env : Env) (req : HttpRequest) (h : String) (tok uid : List Char) (t : Int),
      req.method ≠ "OPTIONS" → req.authHeader = some h →
      splitOnSpace h.data = ["Bearer".data, tok] → env.verify tok = .ok uid →
      env.rateDoc = .lastGen t → env.now - t < RATE_LIMIT_DAYS * SECONDS_PER_DAY →
      (generate_gif_http env req).status = 429 ∧
      (generate_gif_http env req).cooldownUpdated = false) ∧
    (∀ (env : Env) (req : HttpRequest) (h : String) (tok uid : List Char),
      req.method ≠ "OPTIONS" → req.authHeader = some h →
      splitOnSpace h.data = ["Bearer".data, tok] → env.verify tok = .ok uid →
      (check_rate_limit env.now env.rateDoc).1 = true → req.body = none →
      generate_gif_http env req = ⟨.err "Invalid JSON payload", 400, false⟩) ∧
    (∀ (env : Env) (req : HttpRequest) (h : String) (tok uid : List Char)
       (fields : List (String × Json)) (l : List Json) (dv fv gv : Int),
      req.method ≠ "OPTIONS" → req.authHeader = some h →
      splitOnSpace h.data = ["Bearer".data, tok] → env.verify tok = .ok uid →
      (check_rate_limit env.now env.rateDoc).1 = true →
      req.body = some (.obj fields) → (Json.obj fields).falsy = false →
      jsonToInt ((fields.lookup "duration").getD (.num 100)) = some dv →
      jsonToInt ((fields.lookup "fade_frames").getD (.num 10)) = some fv →
      jsonToInt ((fields.lookup "fade_duration").getD (.num 100)) = some gv →
      (fields.lookup "images").getD (.arr []) = .arr l → l.length < 2 →
      generate_gif_http env req = ⟨.err "At least 2 images required", 400, false⟩) ∧
    (∀ (env : Env) (req : HttpRequest) (h : String) (tok uid : List Char)
       (fields : List (String × Json)) (l : List Json) (dv fv gv : Int),
      req.method ≠ "OPTIONS" → req.authHeader = some h →
      splitOnSpace h.data = ["Bearer".data, tok] → env.verify tok = .ok uid →
      (check_rate_limit env.now env.rateDoc).1 = true →
      req.body = some (.obj fields) → (Json.obj fields).falsy = false →
      jsonToInt ((fields.lookup "duration").getD (.num 100)) = some dv →
      jsonToInt ((fields.lookup "fade_frames").getD (.num 10)) = some fv →
      jsonToInt ((fields.lookup "fade_duration").getD (.num 100)) = some gv →
      (fields.lookup "images").getD (.arr []) = .arr l → 3 < l.length →
      generate_gif_http env req = ⟨.err "Maximum 3 images allowed", 400, false⟩) := by
  refine ⟨?_, ?_, ?_, ?_, ?_, ?_, ?_, ?_⟩
  · intro env req hm hh
    exact handler_auth_failed hm (by rw [hh, verify_token_none])
  · intro env req h hm hh hbad
    exact handler_auth_failed hm (by rw [hh]; exact verify_token_malformed env.verify h hbad)
  · intro env req h tok hm hh hp hv
    exact handler_auth_failed hm
      (by rw [hh, verify_token_wellformed env.verify h tok hp, hv])
  · intro env req h tok hm hh hp hv
    exact handler_auth_failed hm
      (by rw [hh, verify_token_wellformed env.verify h tok hp, hv])
  · intro env req h tok uid t hm hh hp hv hdoc hlt
    have hres := handler_rate_limited hm
      (by rw [hh]; exact verify_token_ok env.verify h tok uid hp hv)
      (by rw [hdoc]; exact check_rate_limit_active env.now t hlt)
    rw [hres]
    exact ⟨rfl, rfl⟩
  · intro env req h tok uid hm hh hp hv hr hb
    exact handler_invalid_json_none hm
      (by rw [hh]; exact verify_token_ok env.verify h tok uid hp hv) hr hb
  · intro env req h tok uid fields l dv fv gv hm hh hp hv hr hb hnf hd hf hg himg hlen
    exact handler_too_few hm
      (by rw [hh]; exact verify_token_ok env.verify h tok uid hp hv) hr hb hnf hd hf hg himg hlen
  · intro env req h tok uid fields l dv fv gv hm hh hp hv hr hb hnf hd hf hg himg hlen
    exact handler_too_many hm
      (by rw [hh]; exact verify_token_ok env.verify h tok uid hp hv) hr hb hnf hd hf hg himg hlen

/-- Witness for C6: each validation stage exercised at a concrete request,
in order. -/
theorem validation_order_witness :
    generate_gif_http envAllOk ⟨"POST", none, none⟩ =
      ⟨.err "Missing Authorization header", 401, false⟩ ∧
    generate_gif_http envAllOk ⟨"POST", some "Bearertok", none⟩ =
      ⟨.err "Invalid Authorization header format", 401, false⟩ ∧
    generate_gif_http envInvalidTok (authedReq none) =
      ⟨.err "Invalid authentication token", 401, false⟩ ∧
    generate_gif_http envExpiredTok (authedReq none) =
      ⟨.err "Authentication token expired", 401, false⟩ ∧
    ((generate_gif_http envCooldown (authedReq none)).status = 429 ∧
      (generate_gif_http envCooldown (authedReq none)).cooldownUpdated = false) ∧
    generate_gif_http envAllOk (authedReq none) =
      ⟨.err "Invalid JSON payload", 400, false⟩ ∧
    generate_gif_http envAllOk (authedReq (some (.obj [("images", .arr [.str "a"])]))) =
      ⟨.err "At least 2 images required", 400, false⟩ ∧
    generate_gif_http envAllOk (authedReq (some (.obj [("images",
        .arr [.str "a", .str "b", .str "c", .str "d"])]))) =
      ⟨.err "Maximum 3 images allowed", 400, false⟩ :=
  ⟨validation_order.1 envAllOk ⟨"POST", none, none⟩ (by decide) rfl,
   validation_order.2.1 envAllOk ⟨"POST", some "Bearertok", none⟩ "Bearertok"
     (by decide) rfl (by decide),
   validation_order.2.2.1 envInvalidTok (authedReq none) "Bearer tok" "tok".data
     (by decide) rfl (by decide) rfl,
   validation_order.2.2.2.1 envExpiredTok (authedReq none) "Bearer tok" "tok".data
     (by decide) rfl (by decide) rfl,
   validation_order.2.2.2.2.1 envCooldown (authedReq none) "Bearer tok" "tok".data
     "user1".data 0 (by decide) rfl (by decide) rfl rfl (by decide),
   validation_order.2.2.2.2.2.1 envAllOk (authedReq none) "Bearer tok" "tok".data
     "user1".data (by decide) rfl (by decide) rfl rfl rfl,
   validation_order.2.2.2.2.2.2.1 envAllOk
     (authedReq (some (.obj [("images", .arr [.str "a"])]))) "Bearer tok" "tok".data
     "user1".data [("images", .arr [.str "a"])] [.str "a"] 100 10 100
     (by decide) rfl (by decide) rfl rfl rfl rfl rfl rfl rfl rfl (by decide),
   validation_order.2.2.2.2.2.2.2 envAllOk
     (authedReq (some (.obj [("images", .arr [.str "a", .str "b", .str "c", .str "d"])])))
     "Bearer tok" "tok".data "user1".data
     [("images", .arr [.str "a", .str "b", .str "c", .str "d"])]
     [.str "a", .str "b", .str "c", .str "d"] 100 10 100
     (by decide) rfl (by decide) rfl rfl rfl rfl rfl rfl rfl rfl (by decide)⟩

/-- C7 (confirmed): the cooldown store's last-generation timestamp is
written only when the whole request succeeds (the handler result carries
cooldownUpdated = true only on the 200/gif outcome with the generation
pipeline succeeding); in particular a request with 4 images gets 400
"Maximum 3 images allowed" and no cooldown update is performed. -/
theorem cooldown_update_requires_success :
    (∀ (env : Env) (req : HttpRequest),
      (generate_gif_http env req).cooldownUpdated = true →
      generate_gif_http env req = ⟨.gif, 200, true⟩ ∧ env.pipelineOk = true) ∧
    generate_gif_http envAllOk (authedReq (some (.obj [("images",
        .arr [.str "a", .str "b", .str "c", .str "d"])]))) =
      ⟨.err "Maximum 3 images allowed", 400, false⟩ := by
  constructor
  · intro env req
    unfold generate_gif_http
    repeat' split
    all_goals intro hupd
    all_goals (try simp_all)
    all_goals (try (split at hupd <;> try simp_all))
    all_goals (try (split at hupd <;> try simp_all))
    all_goals (try (split at hupd <;> try simp_all))
    all_goals (try (split <;> try simp_all))
    all_goals (try (split <;> try simp_all))
    all_goals (try (split at hupd <;> try simp_all))
    all_goals (first | rfl | omega | simp_all)
  · decide

/-- Witness for C7: a fully valid two-image request returns 200 with the
cooldown updated, matching the success characterisation. -/
theorem cooldown_update_requires_success_witness :
    (generate_gif_http envAllOk
      (authedReq (some (.obj [("images", .arr [.str "a", .str "b"])])))).cooldownUpdated
        = true ∧
    (generate_gif_http envAllOk
      (authedReq (some (.obj [("images", .arr [.str "a", .str "b"])]))) =
        ⟨.gif, 200, true⟩ ∧ envAllOk.pipelineOk = true) :=
  ⟨by decide, cooldown_update_requires_success.1 envAllOk
    (authedReq (some (.obj [("images", .arr [.str "a", .str "b"])]))) (by decide)⟩

/-- C8 (confirmed): if querying the cooldown store raises during the
rate-limit check, check_rate_limit returns allowed with no error (fail
open), and the handler continues processing instead of rejecting: with a
store error the response is never a 429. -/
theorem rate_limit_fail_open :
    (∀ now : Int, check_rate_limit now RateDoc.storeError = (true, none)) ∧
    (∀ (env : Env) (req : HttpRequest) (h : String) (tok uid : List Char),
      env.rateDoc = .storeError → req.method ≠ "OPTIONS" → req.authHeader = some h →
      splitOnSpace h.data = ["Bearer".data, tok] → env.verify tok = .ok uid →
      (generate_gif_http env req).status ≠ 429) := by
  refine ⟨fun now => rfl, ?_⟩
  intro env req h tok uid hdoc hm hh hp hv
  unfold generate_gif_http
  rw [if_neg hm, hh, verify_token_ok env.verify h tok uid hp hv, hdoc]
  rw [show check_rate_limit env.now RateDoc.storeError = (true, none) from rfl]
  repeat' split
  all_goals (try simp_all)
  all_goals (try (split <;> try simp_all))
  all_goals (try (split <;> try simp_all))
  all_goals (try (split <;> try simp_all))
  all_goals (try (split <;> try simp_all))
  all_goals (try (split <;> try simp_all))
  all_goals (first | rfl | omega | simp_all)

/-- Witness for C8: with the store erroring, the rate check allows and a
request that would otherwise be processed is not answered with 429. -/
theorem rate_limit_fail_open_witness :
    check_rate_limit 0 RateDoc.storeError = (true, none) ∧
    (generate_gif_http envStoreErr (authedReq none)).status ≠ 429 :=
  ⟨rate_limit_fail_open.1 0,
   rate_limit_fail_open.2 envStoreErr (authedReq none) "Bearer tok" "tok".data
     "user1".data rfl (by decide) rfl (by decide) rfl⟩

/-- C10 (confirmed): after authentication and the cooldown check, a body
that parsed to a falsy JSON value (such as the empty object or the empty
array) yields 400 with "Invalid JSON payload" — the identical response to a
body that is not valid JSON at all — before any image-count validation. -/
theorem falsy_json_payload (env : Env) (req : HttpRequest) (h : String)
    (tok uid : List Char) (d : Json)
    (hm : req.method ≠ "OPTIONS") (hh : req.authHeader = some h)
    (hp : splitOnSpace h.data = ["Bearer".data, tok]) (hv : env.verify tok = .ok uid)
    (hr : (check_rate_limit env.now env.rateDoc).1 = true) :
    (req.body = none →
      generate_gif_http env req = ⟨.err "Invalid JSON payload", 400, false⟩) ∧
    (req.body = some d → d.falsy = true →
      generate_gif_http env req = ⟨.err "Invalid JSON payload", 400, false⟩) := by
  have hvo : verify_token env.verify req.authHeader = .ok uid := by
    rw [hh]
    exact verify_token_ok env.verify h tok uid hp hv
  exact ⟨fun hb => handler_invalid_json_none hm hvo hr hb,
    fun hb hd => handler_invalid_json_falsy hm hvo hr hb hd⟩

/-- Witness for C10: a missing-JSON body, the empty object and the empty
array all yield the same "Invalid JSON payload" 400 response (not the
image-count error). -/
theorem falsy_json_payload_witness :
    generate_gif_http envAllOk (authedReq none) =
      ⟨.err "Invalid JSON payload", 400, false⟩ ∧
    generate_gif_http envAllOk (authedReq (some (.obj []))) =
      ⟨.err "Invalid JSON payload", 400, false⟩ ∧
    generate_gif_http envAllOk (authedReq (some (.arr []))) =
      ⟨.err "Invalid JSON payload", 400, false⟩ :=
  ⟨(falsy_json_payload envAllOk (authedReq none) "Bearer tok" "tok".data "user1".data
      (.obj []) (by decide) rfl (by decide) rfl rfl).1 rfl,
   (falsy_json_payload envAllOk (authedReq (some (.obj []))) "Bearer tok" "tok".data
      "user1".data (.obj []) (by decide) rfl (by decide) rfl rfl).2 rfl rfl,
   (falsy_json_payload envAllOk (authedReq (some (.arr []))) "Bearer tok" "tok".data
      "user1".data (.arr []) (by decide) rfl (by decide) rfl rfl).2 rfl rfl⟩

/-- C9 (confirmed, encoder modelled from the spec): the animated-GIF writer
fails with EncodeError on an empty timeline or when any frame's dimensions
differ from the first frame's; otherwise it serializes the frames with the
loop count, per-frame durations and disposal mode passed at the call site —
which generate_gif (both variants) fixes to infinite looping (loop=0), the
timeline's durations and disposal=2 (restore to background). -/
theorem encoder_spec :
    (∀ (durations : List Int) (loop disposal : Nat),
      save [] durations loop disposal = .error .emptyTimeline) ∧
    (∀ (frames : List PaletteFrame) (durations : List Int) (loop disposal : Nat)
       (f0 : PaletteFrame) (rest : List PaletteFrame), frames = f0 :: rest →
      ((∃ f ∈ frames, ¬(f.width = f0.width ∧ f.height = f0.height)) →
        save frames durations loop disposal = .error .sizeMismatch) ∧
      ((∀ f ∈ frames, f.width = f0.width ∧ f.height = f0.height) →
        save frames durations loop disposal = .ok ⟨frames, durations, loop, disposal⟩)) ∧
    (∀ (images : List RasterImage) (d fd : Int) (ff : Nat),
      Cloud.generate_gif images d ff fd =
        save ((cloudTimeline images d ff fd).map (·.1))
          ((cloudTimeline images d ff fd).map (·.2)) 0 2 ∧
      Script.generate_gif images d ff fd =
        save ((synthesize images d ff fd).map (·.1))
          ((synthesize images d ff fd).map (·.2)) 0 2) := by
  refine ⟨fun _ _ _ => rfl, ?_, fun _ _ _ _ => ⟨rfl, rfl⟩⟩
  intro frames durations loop disposal f0 rest hfr
  subst hfr
  constructor
  · rintro ⟨f, hf, hne⟩
    have hall : ¬((f0 :: rest).all
        (fun f => decide (f.width = f0.width) && decide (f.height = f0.height)) = true) := by
      simp only [List.all_eq_true, Bool.and_eq_true, decide_eq_true_eq]
      push_neg
      exact ⟨f, hf, fun hw hh => hne ⟨hw, hh⟩⟩
    simp only [save]
    rw [if_neg hall]
  · intro hall
    have hall2 : ((f0 :: rest).all
        (fun f => decide (f.width = f0.width) && decide (f.height = f0.height)) = true) := by
      simp only [List.all_eq_true, Bool.and_eq_true, decide_eq_true_eq]
      intro f hf
      exact ⟨(hall f hf).1, (hall f hf).2⟩
    simp only [save]
    rw [if_pos hall2]

/-- Witness for C9: the empty timeline errors, a 1x1 frame followed by a
2x2 frame errors with the size mismatch, and two matching 1x1 frames
serialize with loop 0 and disposal 2. -/
theorem encoder_spec_witness :
    save [] [100] 0 2 = .error .emptyTimeline ∧
    save [convertP imgA, ⟨2, 2, imgA⟩] [100, 100] 0 2 = .error .sizeMismatch ∧
    save [convertP imgA, convertP imgB] [100, 100] 0 2 =
      .ok ⟨[convertP imgA, convertP imgB], [100, 100], 0, 2⟩ :=
  ⟨encoder_spec.1 [100] 0 2,
   (encoder_spec.2.1 [convertP imgA, ⟨2, 2, imgA⟩] [100, 100] 0 2 (convertP imgA)
      [⟨2, 2, imgA⟩] rfl).1 ⟨⟨2, 2, imgA⟩, by simp, by decide⟩,
   (encoder_spec.2.1 [convertP imgA, convertP imgB] [100, 100] 0 2 (convertP imgA)
      [convertP imgB] rfl).2 (by decide)⟩
